import Mathlib

/-!
Shallow embedding of the BudgetBuddy budget-tracker core
(`src/data_manager.py`, `src/main.py`, `src/charts.py`,
`src/settings_manager.py`), together with theorems settling the frozen
claims about it.

Modelling conventions:
* monetary amounts are rationals (`ℚ`), modelling Python floats at the
  real-number level of the specification (literals such as `0.5` become
  the exact rationals they denote);
* calendar dates are integers (`Int`), counting days, so date ordering,
  date subtraction and `Timedelta` arithmetic are integer operations;
* a pandas `DataFrame` for an entity kind is a `List` of typed records
  in row order; `sort_values` is `List.insertionSort` with the
  corresponding key relation;
* the current date (`datetime.now().date()`), which the Python code
  reads ambiently, is passed explicitly as a parameter.
-/

namespace BudgetBuddy

/-- Row of `income.csv`: Description, Amount, Date. -/
structure IncomeEntry where
  description : String
  amount : ℚ
  date : Int
  deriving DecidableEq

/-- Row of `essentials.csv`: Category, Expected, Actual. -/
structure EssentialEntry where
  category : String
  expected : ℚ
  actual : ℚ
  deriving DecidableEq

/-- Row of `non_essentials.csv`: Expense, Amount, Date, Notes. -/
structure NonEssentialEntry where
  expense : String
  amount : ℚ
  date : Int
  notes : String
  deriving DecidableEq

/-- Row of `savings.csv`: Deposit, Date. -/
structure SavingsEntry where
  deposit : ℚ
  date : Int
  deriving DecidableEq

/-- Row of `bills.csv`: Bill Name, Amount Due, Due Date, Status. -/
structure Bill where
  name : String
  amountDue : ℚ
  dueDate : Int
  status : String
  deriving DecidableEq

/-- Full in-memory read of all ledger collections (the "snapshot" of the
specification). -/
structure Snapshot where
  income : List IncomeEntry
  essentials : List EssentialEntry
  nonEssentials : List NonEssentialEntry
  savings : List SavingsEntry
  bills : List Bill

/-- Total income: `income_data['Amount'].sum() if not income_data.empty else 0`
(`data_manager.py` line 244, `main.py` line 1090). -/
def totalIncome (l : List IncomeEntry) : ℚ :=
  if l.isEmpty then 0 else (l.map (fun e => e.amount)).sum

/-- Total of the `Actual` column of essentials
(`data_manager.py` line 260, `main.py` line 1091). -/
def totalEssentials (l : List EssentialEntry) : ℚ :=
  if l.isEmpty then 0 else (l.map (fun e => e.actual)).sum

/-- Total of the `Amount` column of non-essentials
(`data_manager.py` line 261, `main.py` line 1092). -/
def totalNonEssentials (l : List NonEssentialEntry) : ℚ :=
  if l.isEmpty then 0 else (l.map (fun e => e.amount)).sum

/-- Total of the `Deposit` column of savings
(`data_manager.py` line 262, `main.py` line 1093). -/
def totalSavings (l : List SavingsEntry) : ℚ :=
  if l.isEmpty then 0 else (l.map (fun e => e.deposit)).sum

/-- Result record of `DataManager.calculate_budget_allocations`. -/
structure Allocations where
  total_income : ℚ
  essentials_target : ℚ
  non_essentials_target : ℚ
  savings_target : ℚ
  deriving DecidableEq

/-- `DataManager.calculate_budget_allocations` (`data_manager.py` lines
241-251): the fixed 50/30/20 split of total income. -/
def calculate_budget_allocations (income : List IncomeEntry) : Allocations :=
  let ti := totalIncome income
  { total_income := ti
    essentials_target := ti * (1 / 2)
    non_essentials_target := ti * (3 / 10)
    savings_target := ti * (1 / 5) }

/-- Result record of `DataManager.calculate_actual_spending`. -/
structure Actuals where
  essentials_actual : ℚ
  non_essentials_actual : ℚ
  savings_actual : ℚ
  deriving DecidableEq

/-- `DataManager.calculate_actual_spending` (`data_manager.py` lines 253-263). -/
def calculate_actual_spending (snap : Snapshot) : Actuals :=
  { essentials_actual := totalEssentials snap.essentials
    non_essentials_actual := totalNonEssentials snap.nonEssentials
    savings_actual := totalSavings snap.savings }

/-- One per-category block of the budget summary. -/
structure CategorySummary where
  target : ℚ
  actual : ℚ
  difference : ℚ
  percentage : ℚ
  deriving DecidableEq

/-- Result record of `DataManager.get_budget_summary`. -/
structure BudgetSummary where
  essentials : CategorySummary
  non_essentials : CategorySummary
  savings : CategorySummary
  total_income : ℚ
  deriving DecidableEq

/-- Percentage-of-income guard used in every category block of
`get_budget_summary`: `(actual / total_income * 100) if total_income > 0 else 0`. -/
def pctOfIncome (actual ti : ℚ) : ℚ :=
  if 0 < ti then actual / ti * 100 else 0

/-- `DataManager.get_budget_summary` (`data_manager.py` lines 265-290). -/
def get_budget_summary (snap : Snapshot) : BudgetSummary :=
  let allocations := calculate_budget_allocations snap.income
  let actuals := calculate_actual_spending snap
  { essentials :=
      { target := allocations.essentials_target
        actual := actuals.essentials_actual
        difference := actuals.essentials_actual - allocations.essentials_target
        percentage := pctOfIncome actuals.essentials_actual allocations.total_income }
    non_essentials :=
      { target := allocations.non_essentials_target
        actual := actuals.non_essentials_actual
        difference := actuals.non_essentials_actual - allocations.non_essentials_target
        percentage := pctOfIncome actuals.non_essentials_actual allocations.total_income }
    savings :=
      { target := allocations.savings_target
        actual := actuals.savings_actual
        difference := actuals.savings_actual - allocations.savings_target
        percentage := pctOfIncome actuals.savings_actual allocations.total_income }
    total_income := allocations.total_income }

/-- Variance of actual against target, from `main.py` line 1168:
`((actual - target) / target * 100) if target > 0 else 0`. -/
def progressVariance (actual target : ℚ) : ℚ :=
  if 0 < target then (actual - target) / target * 100 else 0

/-- Over/Under classification of a variance, from `main.py` line 1170:
`'Over' if variance > 0 else 'Under'`. -/
def varianceLabel (v : ℚ) : String :=
  if 0 < v then ("Over") else ("Under")

/-- The concrete scenario snapshot of claim C4: one income of 1000 and an
essentials row with actual 600. -/
def scenarioSnapshot : Snapshot :=
  ⟨[⟨("Salary"), 1000, 0⟩], [⟨("Housing"), 500, 600⟩], [], [], []⟩

/-! ### Spending trends (`DataManager.get_spending_trends`, lines 293-332)
and the chart densification (`ChartManager.create_spending_trend_chart`,
`charts.py` lines 336-391). -/

/-- Date/amount projection of a non-essential row, the two columns the
trend aggregation reads. -/
def neRow (e : NonEssentialEntry) : Int × ℚ := (e.date, e.amount)

/-- The date filter `(df['Date'] >= start_date) & (df['Date'] <= end_date)`
shared by `get_spending_trends` and the trend chart. -/
def filterRange (startD endD : Int) (rows : List (Int × ℚ)) : List (Int × ℚ) :=
  rows.filter (fun r => decide (startD ≤ r.1) && decide (r.1 ≤ endD))

/-- Sum of the amounts carried by rows dated `d`. -/
def sumAmountsOn (d : Int) (rows : List (Int × ℚ)) : ℚ :=
  ((rows.filter (fun r => r.1 == d)).map (fun r => r.2)).sum

/-- The group keys produced by `groupby('Date')`: the distinct dates, in
ascending order. -/
def groupDates (rows : List (Int × ℚ)) : List Int :=
  List.insertionSort (fun a b : Int => a ≤ b) (rows.map (fun r => r.1)).dedup

/-- `df.groupby('Date')['Amount'].sum().reset_index()`: one row per
distinct date present, carrying the daily sum. Dates with no rows are
absent — pandas group-by does not densify. -/
def groupbySum (rows : List (Int × ℚ)) : List (Int × ℚ) :=
  (groupDates rows).map (fun d => (d, sumAmountsOn d rows))

/-- The non-essentials series of `DataManager.get_spending_trends`
(`data_manager.py` lines 300-308): `none` when the collection is empty
(no key is put into the `trends` dict), otherwise the plain group-by of
the rows of the trailing window `end_date - days .. end_date`. -/
def get_spending_trends_ne (entries : List NonEssentialEntry) (days : Nat)
    (endDate : Int) : Option (List (Int × ℚ)) :=
  if entries.isEmpty then Option.none
  else some (groupbySum (filterRange (endDate - days) endDate (entries.map neRow)))

/-- `pd.date_range(start, end, freq='D')` as day numbers: `n` consecutive
days starting at `startD`. -/
def date_range (startD : Int) (n : Nat) : List Int :=
  (List.range n).map (fun i => startD + Int.ofNat i)

/-- The left-merge lookup of `complete_data.merge(daily_spending, on='Date',
how='left')` followed by `fillna(0)`: the daily sum for a date, 0 when the
date has no group-by row. -/
def lookupAmount (d : Int) (rows : List (Int × ℚ)) : ℚ :=
  match rows.find? (fun r => r.1 == d) with
  | some r => r.2
  | Option.none => 0

/-- The densified series built in `create_spending_trend_chart`
(`charts.py` lines 361-368): the complete date range of the trailing
`days` days, each paired with its daily sum, zero-filled. -/
def complete_data (entries : List NonEssentialEntry) (days : Nat)
    (endDate : Int) : List (Int × ℚ) :=
  (date_range (endDate - days) (days + 1)).map
    (fun d =>
      (d, lookupAmount d (groupbySum (filterRange (endDate - days) endDate (entries.map neRow)))))

/-! ### Bills: loading, overdue and upcoming queries
(`DataManager.get_bills_data`, `get_overdue_bills`, `get_upcoming_bills`,
`data_manager.py` lines 117-127 and 334-363). -/

/-- Ascending due-date ordering on bills (`sort_values('Due Date')`). -/
def billLE (a b : Bill) : Prop := a.dueDate ≤ b.dueDate

instance : DecidableRel billLE := fun a b => Int.decLe a.dueDate b.dueDate

instance : IsTotal Bill billLE := ⟨fun a b => Int.le_total a.dueDate b.dueDate⟩

instance : IsTrans Bill billLE := ⟨fun _ _ _ hab hbc => le_trans hab hbc⟩

/-- `DataManager.get_bills_data`: loads the stored rows sorted ascending
by due date. -/
def get_bills_data (store : List Bill) : List Bill :=
  List.insertionSort billLE store

/-- The overdue filter of `get_overdue_bills`:
`(Status == 'Unpaid') & (Due Date < today)`. -/
def isUnpaidOverdue (today : Int) (b : Bill) : Bool :=
  (b.status == ("Unpaid")) && decide (b.dueDate < today)

/-- `DataManager.get_overdue_bills` (lines 334-346), with `today` passed
explicitly in place of `datetime.now().date()`. -/
def get_overdue_bills (store : List Bill) (today : Int) : List Bill :=
  let bills := get_bills_data store
  if bills.isEmpty then []
  else List.insertionSort billLE (bills.filter (isUnpaidOverdue today))

/-- The upcoming filter of `get_upcoming_bills`:
`(Status == 'Unpaid') & (today <= Due Date) & (Due Date <= today + days)`. -/
def isUnpaidUpcoming (today : Int) (days : Nat) (b : Bill) : Bool :=
  (b.status == ("Unpaid")) && decide (today ≤ b.dueDate)
    && decide (b.dueDate ≤ today + (days : Int))

/-- `DataManager.get_upcoming_bills` (lines 348-363). -/
def get_upcoming_bills (store : List Bill) (today : Int) (days : Nat) : List Bill :=
  let bills := get_bills_data store
  if bills.isEmpty then []
  else List.insertionSort billLE (bills.filter (isUnpaidUpcoming today days))

/-! ### Position-based delete and status toggle
(`DataManager.delete_income` lines 72-80,
`DataManager.toggle_bill_status` lines 144-154). The guard
`0 <= index < len(df)` decides whether anything is dropped or rewritten;
the second component of the result records whether `to_csv` was invoked. -/

/-- `DataManager.delete_income` acting on the loaded collection. Outside
`[0, len)` nothing happens: no row is dropped and no write occurs. -/
def delete_income (rows : List IncomeEntry) (index : Int) : List IncomeEntry × Bool :=
  if 0 ≤ index ∧ index < (rows.length : Int) then
    (rows.eraseIdx index.toNat, true)
  else (rows, false)

/-- The status update of `toggle_bill_status`:
`"Paid" if current_status == "Unpaid" else "Unpaid"`. -/
def toggle_status (s : String) : String :=
  if s = ("Unpaid") then ("Paid") else ("Unpaid")

/-- A bill with its status toggled, all other fields kept. -/
def toggleRow (b : Bill) : Bill :=
  { b with status := toggle_status b.status }

instance : Inhabited Bill :=
  ⟨{ name := (""), amountDue := 0, dueDate := 0, status := ("Unpaid") }⟩

/-- `DataManager.toggle_bill_status` acting on the loaded collection. -/
def toggle_bill_status (rows : List Bill) (index : Int) : List Bill × Bool :=
  if 0 ≤ index ∧ index < (rows.length : Int) then
    (rows.set index.toNat (toggleRow (rows.getD index.toNat default)), true)
  else (rows, false)

/-! ### Flat-file failure semantics (`DataManager.get_income_data` lines
46-56, `DataManager.add_income` lines 58-70). The backing file is an
`Option (List IncomeEntry)`: `none` models a file whose read or parse
raises. Writes are modelled atomically through the oracle `writeOk`
telling whether `to_csv` succeeds; on failure the wrapped exception
propagates to the caller (second component `true`) and the file keeps its
prior contents. -/

/-- Descending date ordering (`sort_values('Date', ascending=False)`). -/
def dateDescLE (a b : IncomeEntry) : Prop := b.date ≤ a.date

instance : DecidableRel dateDescLE := fun a b => Int.decLe b.date a.date

instance : IsTotal IncomeEntry dateDescLE := ⟨fun a b => Int.le_total b.date a.date⟩

instance : IsTrans IncomeEntry dateDescLE := ⟨fun _ _ _ hab hbc => le_trans hbc hab⟩

/-- The stored `income.csv` contents, `none` when unreadable. -/
structure IncomeFile where
  file : Option (List IncomeEntry)
  deriving DecidableEq

/-- `DataManager.get_income_data`: a successful read is sorted descending
by date; a read/parse failure is caught, logged and replaced by the empty
typed collection — nothing is raised to the caller. -/
def get_income_data (s : IncomeFile) : List IncomeEntry :=
  match s.file with
  | some rows => List.insertionSort dateDescLE rows
  | Option.none => []

/-- `DataManager.add_income`: loads, appends the new row and rewrites the
file; the Bool result records whether an exception reaches the caller. -/
def add_income (writeOk : Bool) (s : IncomeFile) (description : String)
    (amount : ℚ) (date : Int) : IncomeFile × Bool :=
  let rows := get_income_data s ++ [⟨description, amount, date⟩]
  if writeOk then ({ file := some rows }, false) else (s, true)

/-- `DataManager.delete_income` at the file level, with the write oracle. -/
def delete_income_file (writeOk : Bool) (s : IncomeFile) (index : Int) :
    IncomeFile × Bool :=
  let df := get_income_data s
  if 0 ≤ index ∧ index < (df.length : Int) then
    if writeOk then ({ file := some (df.eraseIdx index.toNat) }, false)
    else (s, true)
  else (s, false)

/-! ### Analytics metrics and the financial health score
(`main.py` lines 1090-1223). -/

/-- `total_expenses = total_essentials + total_non_essentials`
(`main.py` line 1094). -/
def total_expenses (snap : Snapshot) : ℚ :=
  totalEssentials snap.essentials + totalNonEssentials snap.nonEssentials

/-- `savings_rate` (`main.py` line 1112). -/
def savings_rate (snap : Snapshot) : ℚ :=
  if 0 < totalIncome snap.income
  then totalSavings snap.savings / totalIncome snap.income * 100 else 0

/-- `expense_ratio` of `main.py` line 1113 (renamed here with a `_pct`
suffix). -/
def expense_ratio_pct (snap : Snapshot) : ℚ :=
  if 0 < totalIncome snap.income
  then total_expenses snap / totalIncome snap.income * 100 else 0

/-- The value the loop variable `variance` holds after the Budget
Adherence loop (`main.py` lines 1146-1172) — its last iteration is the
Savings category, so this is the savings-target variance, which line 1218
then uses as the representative variance of the health score. -/
def adherence_variance (snap : Snapshot) : ℚ :=
  progressVariance (totalSavings snap.savings) (totalIncome snap.income * (1 / 5))

/-- The "Savings Rate" component of `score_components` (`main.py` line 1217). -/
def score_savings_rate (snap : Snapshot) : ℚ :=
  min (savings_rate snap / 20 * 25) 25

/-- The "Budget Adherence" component (`main.py` line 1218). -/
def score_budget_adherence (snap : Snapshot) : ℚ :=
  max 0 (25 - |adherence_variance snap| / 10 * 25)

/-- The "Emergency Fund" component (`main.py` line 1219). -/
def score_emergency_fund (snap : Snapshot) : ℚ :=
  if 0 < total_expenses snap
  then min (totalSavings snap.savings / (total_expenses snap * 3) * 25) 25 else 0

/-- The "Expense Control" component (`main.py` line 1220). -/
def score_expense_control (snap : Snapshot) : ℚ :=
  if 80 < expense_ratio_pct snap
  then max 0 (25 - (expense_ratio_pct snap - 80) / 20 * 25) else 25

/-- `total_score = sum(score_components.values())` (`main.py` line 1223). -/
def total_score (snap : Snapshot) : ℚ :=
  score_savings_rate snap + score_budget_adherence snap
    + score_emergency_fund snap + score_expense_control snap

/-- The concrete snapshot used to witness claim C2. -/
def healthWitnessSnapshot : Snapshot :=
  ⟨[⟨("Salary"), 1000, 0⟩], [⟨("Housing"), 400, 450⟩],
    [⟨("Movies"), 100, 1, ("")⟩], [⟨200, 2⟩], []⟩

/-! ### Settings persistence (`settings_manager.py`). Values are the
scalar / list / boolean shapes the defaults use; a Python dict is an
association list with distinct keys; the JSON and legacy CSV files are
tri-state: absent, unreadable, or readable content. The CSV mirror stores
strings; its list encoding stands in for `json.dumps`/`json.loads`
restricted to the plain category names the application writes. -/

/-- A settings value: string, integer, boolean, list of strings, or the
Python `None` stored by `last_backup`. -/
inductive SettingVal where
  | str (s : String)
  | int (n : Int)
  | bool (b : Bool)
  | list (l : List String)
  | null
  deriving DecidableEq

/-- A Python dict of settings: association list, first component the key. -/
abbrev SettingsDict := List (String × SettingVal)

/-- Dict lookup: value at the first matching key. -/
def lookupKey (d : SettingsDict) (k : String) : Option SettingVal :=
  (d.find? (fun p => p.1 == k)).map (fun p => p.2)

/-- Dict assignment `d[k] = v`: replace the value at an existing key in
place, append a new key at the end. -/
def setKey : SettingsDict → String → SettingVal → SettingsDict
  | [], k, v => [(k, v)]
  | p :: rest, k, v => if p.1 = k then (k, v) :: rest else p :: setKey rest k v

/-- `d.update(other)`: assign every pair of `other` in order. -/
def dictUpdate (d other : SettingsDict) : SettingsDict :=
  other.foldl (fun acc p => setKey acc p.1 p.2) d

/-- The key list of a dict. -/
def keysOf (d : SettingsDict) : List String := d.map (fun p => p.1)

/-- `SettingsManager.get_default_settings` (`settings_manager.py` lines
25-72), with every key and value. -/
def default_settings : SettingsDict :=
  [("theme", SettingVal.str ("dark")),
   ("currency", SettingVal.str ("PHP")),
   ("date_format", SettingVal.str ("%Y-%m-%d")),
   ("window_geometry", SettingVal.str ("1400x800")),
   ("auto_save", SettingVal.bool true),
   ("backup_frequency", SettingVal.int 7),
   ("last_backup", SettingVal.null),
   ("notifications_enabled", SettingVal.bool true),
   ("budget_alerts", SettingVal.bool true),
   ("overspending_alert_threshold", SettingVal.int 10),
   ("currency_symbol", SettingVal.str ("₱")),
   ("decimal_places", SettingVal.int 2),
   ("first_time_setup", SettingVal.bool true),
   ("language", SettingVal.str ("en")),
   ("export_format", SettingVal.str ("xlsx")),
   ("chart_style", SettingVal.str ("default")),
   ("sidebar_expanded", SettingVal.bool true),
   ("default_page", SettingVal.str ("dashboard")),
   ("income_categories",
     SettingVal.list ["Salary", "Freelance", "Investments", "Business", "Other"]),
   ("essential_categories",
     SettingVal.list ["Housing", "Utilities", "Groceries", "Transportation",
       "Insurance", "Healthcare", "Debt Payments"]),
   ("non_essential_categories",
     SettingVal.list ["Entertainment", "Dining Out", "Shopping", "Hobbies",
       "Travel", "Subscriptions", "Personal Care"])]

/-- State of one persisted file. -/
inductive FileState (α : Type) where
  | absent
  | corrupt
  | ok (data : α)
  deriving DecidableEq

/-- The two settings files of `SettingsManager`. -/
structure SettingsFiles where
  jsonFile : FileState SettingsDict
  csvFile : FileState (List (String × String))

/-- The keys the CSV loader coerces to booleans
(`settings_manager.py` line 103). -/
def boolKeys : List String :=
  ["auto_save", "notifications_enabled", "budget_alerts", "first_time_setup",
   "sidebar_expanded"]

/-- The keys the CSV loader coerces to integers (line 105). -/
def intKeys : List String :=
  ["backup_frequency", "overspending_alert_threshold", "decimal_places"]

/-- The keys the CSV loader parses as JSON lists (line 107). -/
def listKeys : List String :=
  ["income_categories", "essential_categories", "non_essential_categories"]

/-- CSV encoding of a value as written by `save_settings_to_csv`
(lines 140-152): lists via the (simplified) JSON list form, booleans via
`str(value).lower()`. -/
def encodeVal : SettingVal → String
  | SettingVal.str s => s
  | SettingVal.int n => toString n
  | SettingVal.bool b => if b then ("true") else ("false")
  | SettingVal.list l => ("[") ++ String.intercalate (",") l ++ ("]")
  | SettingVal.null => ("")

/-- Partial inverse of the list encoding, standing in for `json.loads`
on the list-valued keys. -/
def decodeStrList (s : String) : Option (List String) :=
  if s.startsWith ("[") && s.endsWith ("]") then
    let inner := (s.drop 1).dropRight 1
    if inner = ("") then some [] else some (inner.splitOn (","))
  else Option.none

/-- The row loop of `load_settings_from_csv` (lines 98-114), threading
the exception a failing `int(value)` raises (any such exception aborts
the whole load and falls back to the defaults). -/
def parse_rows : List (String × String) → SettingsDict → Except Unit SettingsDict
  | [], acc => Except.ok acc
  | (k, v) :: rest, acc =>
      if boolKeys.contains k then
        parse_rows rest (setKey acc k (SettingVal.bool (v.toLower == ("true"))))
      else if intKeys.contains k then
        if v = ("") then
          parse_rows rest (setKey acc k ((lookupKey default_settings k).getD SettingVal.null))
        else
          match v.toInt? with
          | some n => parse_rows rest (setKey acc k (SettingVal.int n))
          | Option.none => Except.error ()
      else if listKeys.contains k then
        parse_rows rest (setKey acc k
          (match decodeStrList v with
           | some l => SettingVal.list l
           | Option.none => (lookupKey default_settings k).getD SettingVal.null))
      else
        parse_rows rest (setKey acc k
          (if v = ("") then (lookupKey default_settings k).getD SettingVal.null
           else SettingVal.str v))

/-- `SettingsManager.load_settings_from_csv` (lines 91-121): defaults
updated row by row; an absent or unreadable file, or a row that raises,
yields the defaults. -/
def load_settings_from_csv (fs : SettingsFiles) : SettingsDict :=
  match fs.csvFile with
  | FileState.ok rows =>
      match parse_rows rows default_settings with
      | Except.ok s => s
      | Except.error _ => default_settings
  | FileState.absent => default_settings
  | FileState.corrupt => default_settings

/-- `SettingsManager.load_settings` (lines 74-89): a readable JSON file
is merged over the defaults; a JSON parse error falls back to the
defaults; an absent JSON file falls back to the legacy CSV loader. -/
def load_settings (fs : SettingsFiles) : SettingsDict :=
  match fs.jsonFile with
  | FileState.ok s => dictUpdate default_settings s
  | FileState.corrupt => default_settings
  | FileState.absent => load_settings_from_csv fs

/-- `SettingsManager.save_settings` (lines 123-138): writes the map to
the JSON file and mirrors it to the CSV file. -/
def save_settings (fs : SettingsFiles) (settings : SettingsDict) : SettingsFiles :=
  let _ := fs
  { jsonFile := FileState.ok settings
    csvFile := FileState.ok (settings.map (fun p => (p.1, encodeVal p.2))) }

/-- Claim C5: the three allocation targets are exactly 0.5, 0.3 and 0.2
times the total income, and their sum equals the total income (exactly,
in the rational model; hence within floating-point tolerance). Proved
for every income collection, in particular every non-empty one. -/
theorem allocations_sum_to_income (income : List IncomeEntry) :
    (calculate_budget_allocations income).essentials_target
      = totalIncome income * (1 / 2)
    ∧ (calculate_budget_allocations income).non_essentials_target
      = totalIncome income * (3 / 10)
    ∧ (calculate_budget_allocations income).savings_target
      = totalIncome income * (1 / 5)
    ∧ (calculate_budget_allocations income).essentials_target
        + (calculate_budget_allocations income).non_essentials_target
        + (calculate_budget_allocations income).savings_target
      = (calculate_budget_allocations income).total_income := by
  refine ⟨rfl, rfl, rfl, ?_⟩
  show totalIncome income * (1 / 2) + totalIncome income * (3 / 10)
      + totalIncome income * (1 / 5) = totalIncome income
  ring

/-- Claim C3: with no income entries every target and every
percentage-of-income in the budget summary is 0 (the guard `total_income > 0`
makes the percentage total, so no division by zero is possible), and each
category whose backing collection is empty has actual 0. -/
theorem budget_summary_zero_income_safe (snap : Snapshot) :
    (snap.income = [] →
      (get_budget_summary snap).essentials.target = 0
      ∧ (get_budget_summary snap).non_essentials.target = 0
      ∧ (get_budget_summary snap).savings.target = 0
      ∧ (get_budget_summary snap).essentials.percentage = 0
      ∧ (get_budget_summary snap).non_essentials.percentage = 0
      ∧ (get_budget_summary snap).savings.percentage = 0)
    ∧ (snap.essentials = [] → (get_budget_summary snap).essentials.actual = 0)
    ∧ (snap.nonEssentials = [] → (get_budget_summary snap).non_essentials.actual = 0)
    ∧ (snap.savings = [] → (get_budget_summary snap).savings.actual = 0) := by
  refine ⟨?_, ?_, ?_, ?_⟩
  · intro h
    simp [get_budget_summary, calculate_budget_allocations, totalIncome, pctOfIncome, h]
  · intro h
    simp [get_budget_summary, calculate_actual_spending, totalEssentials, h]
  · intro h
    simp [get_budget_summary, calculate_actual_spending, totalNonEssentials, h]
  · intro h
    simp [get_budget_summary, calculate_actual_spending, totalSavings, h]

/-- Witness for claim C3 at the concrete all-empty snapshot. -/
theorem budget_summary_zero_income_safe_witness :
    (get_budget_summary ⟨[], [], [], [], []⟩).essentials.target = 0
    ∧ (get_budget_summary ⟨[], [], [], [], []⟩).essentials.percentage = 0
    ∧ (get_budget_summary ⟨[], [], [], [], []⟩).essentials.actual = 0 := by
  have h := budget_summary_zero_income_safe ⟨[], [], [], [], []⟩
  exact ⟨(h.1 rfl).1, (h.1 rfl).2.2.2.1, h.2.1 rfl⟩

/-- Claim C4: the variance is `(actual-target)/target*100` for positive
target and 0 for target 0; a positive variance is labelled "Over" and a
negative one "Under"; and in the scenario with income 1000 and essentials
actual 600 the target is 500, the difference +100, the variance +20%,
labelled "Over". -/
theorem variance_spec (actual target : ℚ) :
    (0 < target → progressVariance actual target = (actual - target) / target * 100)
    ∧ (target = 0 → progressVariance actual target = 0)
    ∧ (0 < progressVariance actual target →
        varianceLabel (progressVariance actual target) = ("Over"))
    ∧ (progressVariance actual target < 0 →
        varianceLabel (progressVariance actual target) = ("Under"))
    ∧ (get_budget_summary scenarioSnapshot).essentials.target = 500
    ∧ (get_budget_summary scenarioSnapshot).essentials.difference = 100
    ∧ progressVariance 600 500 = 20
    ∧ varianceLabel (progressVariance 600 500) = ("Over") := by
  refine ⟨?_, ?_, ?_, ?_, ?_, ?_, ?_, ?_⟩
  · intro h
    simp [progressVariance, h]
  · intro h
    simp [progressVariance, h]
  · intro h
    simp [varianceLabel, h]
  · intro h
    have hv : ¬ (0 < progressVariance actual target) := by linarith
    simp [varianceLabel, hv]
  · show totalIncome scenarioSnapshot.income * (1 / 2) = 500
    norm_num [scenarioSnapshot, totalIncome]
  · show totalEssentials scenarioSnapshot.essentials
        - totalIncome scenarioSnapshot.income * (1 / 2) = 100
    norm_num [scenarioSnapshot, totalIncome, totalEssentials]
  · norm_num [progressVariance]
  · norm_num [progressVariance, varianceLabel]

/-- Witness for claim C4 at actual 600, target 500. -/
theorem variance_spec_witness :
    progressVariance 600 500 = (600 - 500) / 500 * 100
    ∧ varianceLabel (progressVariance 600 500) = ("Over") := by
  have h := variance_spec 600 500
  refine ⟨h.1 (by norm_num), ?_⟩
  have h20 : progressVariance 600 500 = 20 := h.2.2.2.2.2.2.1
  exact h.2.2.1 (by rw [h20]; norm_num)

lemma find_pair_map (d : Int) (f : Int → ℚ) :
    ∀ ds : List Int,
      (ds.map (fun x => (x, f x))).find? (fun r => r.1 == d)
        = (ds.find? (fun x => x == d)).map (fun x => (x, f x)) := by
  intro ds
  induction ds with
  | nil => rfl
  | cons a t ih =>
      by_cases h : a = d
      · subst h
        simp [List.find?]
      · have hb : (a == d) = false := beq_eq_false_iff_ne.mpr h
        simp [List.find?, hb, ih]

lemma find_self (d : Int) :
    ∀ ds : List Int, d ∈ ds → ds.find? (fun x => x == d) = some d := by
  intro ds
  induction ds with
  | nil => intro h; cases h
  | cons a t ih =>
      intro h
      by_cases ha : a = d
      · subst ha
        simp [List.find?]
      · have ht : d ∈ t := by
          cases h with
          | head => exact absurd rfl ha
          | tail _ h => exact h
        have hb : (a == d) = false := beq_eq_false_iff_ne.mpr ha
        simp [List.find?, hb, ih ht]

lemma mem_groupDates (d : Int) (rows : List (Int × ℚ)) :
    d ∈ groupDates rows ↔ d ∈ rows.map (fun r => r.1) := by
  unfold groupDates
  rw [List.mem_insertionSort, List.mem_dedup]

lemma sumAmountsOn_eq_zero (d : Int) (rows : List (Int × ℚ))
    (h : ∀ r ∈ rows, r.1 ≠ d) : sumAmountsOn d rows = 0 := by
  unfold sumAmountsOn
  have hf : rows.filter (fun r => r.1 == d) = [] := by
    rw [List.filter_eq_nil_iff]
    intro r hr
    simpa using h r hr
  simp [hf]

lemma lookupAmount_groupbySum (d : Int) (rows : List (Int × ℚ)) :
    lookupAmount d (groupbySum rows) = sumAmountsOn d rows := by
  unfold lookupAmount groupbySum
  rw [find_pair_map]
  by_cases hd : d ∈ groupDates rows
  · rw [find_self d _ hd]
    simp
  · have hnone : (groupDates rows).find? (fun x => x == d) = Option.none := by
      rw [List.find?_eq_none]
      intro x hx
      simp only [beq_iff_eq]
      intro hxd
      exact hd (hxd ▸ hx)
    rw [hnone]
    have hz : sumAmountsOn d rows = 0 := by
      apply sumAmountsOn_eq_zero
      intro r hr hrd
      exact hd ((mem_groupDates d rows).mpr (List.mem_map.mpr ⟨r, hr, hrd⟩))
    simp [hz]

lemma map_fst_pair (f : Int → ℚ) (ds : List Int) :
    (ds.map (fun d => (d, f d))).map Prod.fst = ds := by
  induction ds with
  | nil => rfl
  | cons a t ih => simp [ih]

lemma map_fst_groupbySum (rows : List (Int × ℚ)) :
    (groupbySum rows).map Prod.fst = groupDates rows := by
  unfold groupbySum
  rw [map_fst_pair]

/-- Claim C1, counterexample: a collection with a single entry dated on
the final day of a 2-day trailing window produces a trend series of
length 1, not `days + 1 = 3` — `get_spending_trends` does not densify. -/
theorem get_spending_trends_not_dense :
    ((get_spending_trends_ne [⟨("Coffee"), 5, 0, ("")⟩] 2 0).getD []).length = 1
    ∧ (1 : Nat) ≠ 2 + 1 := by
  constructor
  · rfl
  · decide

/-- Claim C1 as amended: the complete-calendar-range property holds of the
densified series `complete_data` built inside
`create_spending_trend_chart`, not of `get_spending_trends`: it has
exactly `days + 1` entries, its dates are the contiguous trailing window,
a date's value is the daily sum of the entries on it (hence 0 for days
with no entries), while the `get_spending_trends` series contains exactly
the dates that have at least one in-range entry. -/
theorem complete_data_dense (entries : List NonEssentialEntry) (days : Nat)
    (endDate : Int) :
    (complete_data entries days endDate).length = days + 1
    ∧ (complete_data entries days endDate).map Prod.fst
        = (List.range (days + 1)).map (fun i => endDate - (days : Int) + Int.ofNat i)
    ∧ (∀ p ∈ complete_data entries days endDate,
        p.2 = sumAmountsOn p.1 (filterRange (endDate - days) endDate (entries.map neRow)))
    ∧ (∀ p ∈ complete_data entries days endDate,
        (∀ r ∈ filterRange (endDate - days) endDate (entries.map neRow), r.1 ≠ p.1) →
          p.2 = 0)
    ∧ (∀ d : Int,
        d ∈ ((get_spending_trends_ne entries days endDate).getD []).map Prod.fst
          ↔ d ∈ (filterRange (endDate - days) endDate (entries.map neRow)).map
              (fun r => r.1)) := by
  have hmem : ∀ p ∈ complete_data entries days endDate,
      p.2 = sumAmountsOn p.1 (filterRange (endDate - days) endDate (entries.map neRow)) := by
    intro p hp
    unfold complete_data at hp
    obtain ⟨d, _, rfl⟩ := List.mem_map.mp hp
    exact lookupAmount_groupbySum d _
  refine ⟨?_, ?_, hmem, ?_, ?_⟩
  · unfold complete_data date_range
    rw [List.length_map, List.length_map, List.length_range]
  · unfold complete_data
    rw [map_fst_pair]
    rfl
  · intro p hp hnone
    rw [hmem p hp]
    exact sumAmountsOn_eq_zero _ _ hnone
  · intro d
    by_cases he : entries.isEmpty
    · have : entries = [] := List.isEmpty_iff.mp he
      subst this
      simp [get_spending_trends_ne, filterRange]
    · unfold get_spending_trends_ne
      rw [if_neg he]
      show d ∈ (groupbySum _).map Prod.fst ↔ _
      rw [map_fst_groupbySum, mem_groupDates]

lemma overdue_eq (store : List Bill) (today : Int) :
    get_overdue_bills store today
      = List.insertionSort billLE ((get_bills_data store).filter (isUnpaidOverdue today)) := by
  unfold get_overdue_bills
  by_cases h : (get_bills_data store).isEmpty
  · have hnil : get_bills_data store = [] := List.isEmpty_iff.mp h
    simp [hnil]
  · simp [h]

lemma upcoming_eq (store : List Bill) (today : Int) (days : Nat) :
    get_upcoming_bills store today days
      = List.insertionSort billLE
          ((get_bills_data store).filter (isUnpaidUpcoming today days)) := by
  unfold get_upcoming_bills
  by_cases h : (get_bills_data store).isEmpty
  · have hnil : get_bills_data store = [] := List.isEmpty_iff.mp h
    simp [hnil]
  · simp [h]

/-- Claim C6: the overdue query returns exactly the stored bills that are
Unpaid with due date strictly before today, sorted ascending by due date;
the upcoming query returns exactly the Unpaid bills due between today and
today plus the horizon, sorted ascending by due date; no bill satisfies
both filters, so the two results are disjoint. -/
theorem overdue_upcoming_bills_spec (store : List Bill) (today : Int) (days : Nat) :
    (get_overdue_bills store today).Perm (store.filter (isUnpaidOverdue today))
    ∧ List.Sorted billLE (get_overdue_bills store today)
    ∧ (∀ b, b ∈ get_overdue_bills store today
        ↔ b ∈ store ∧ b.status = ("Unpaid") ∧ b.dueDate < today)
    ∧ (get_upcoming_bills store today days).Perm
        (store.filter (isUnpaidUpcoming today days))
    ∧ List.Sorted billLE (get_upcoming_bills store today days)
    ∧ (∀ b, b ∈ get_upcoming_bills store today days
        ↔ b ∈ store ∧ b.status = ("Unpaid") ∧ today ≤ b.dueDate
            ∧ b.dueDate ≤ today + (days : Int))
    ∧ (∀ b, b ∈ get_overdue_bills store today →
        b ∈ get_upcoming_bills store today days → False) := by
  have hpo : (get_overdue_bills store today).Perm
      (store.filter (isUnpaidOverdue today)) := by
    rw [overdue_eq]
    exact (List.perm_insertionSort _ _).trans
      ((List.perm_insertionSort billLE store).filter _)
  have hpu : (get_upcoming_bills store today days).Perm
      (store.filter (isUnpaidUpcoming today days)) := by
    rw [upcoming_eq]
    exact (List.perm_insertionSort _ _).trans
      ((List.perm_insertionSort billLE store).filter _)
  have hmo : ∀ b, b ∈ get_overdue_bills store today
      ↔ b ∈ store ∧ b.status = ("Unpaid") ∧ b.dueDate < today := by
    intro b
    rw [hpo.mem_iff, List.mem_filter]
    simp [isUnpaidOverdue, and_assoc]
  have hmu : ∀ b, b ∈ get_upcoming_bills store today days
      ↔ b ∈ store ∧ b.status = ("Unpaid") ∧ today ≤ b.dueDate
          ∧ b.dueDate ≤ today + (days : Int) := by
    intro b
    rw [hpu.mem_iff, List.mem_filter]
    simp [isUnpaidUpcoming, and_assoc]
  refine ⟨hpo, ?_, hmo, hpu, ?_, hmu, ?_⟩
  · rw [overdue_eq]
    exact List.sorted_insertionSort billLE _
  · rw [upcoming_eq]
    exact List.sorted_insertionSort billLE _
  · intro b hbo hbu
    have h1 := ((hmo b).mp hbo).2.2
    have h2 := ((hmu b).mp hbu).2.2.1
    omega

/-- Claim C7: for any position outside `[0, length)` — negative or past
the end — delete and status toggle return the collection unchanged and
perform no write (and, being total functions, raise nothing). -/
theorem out_of_range_ops_noop (incomeRows : List IncomeEntry) (billRows : List Bill)
    (index : Int)
    (hi : index < 0 ∨ (incomeRows.length : Int) ≤ index)
    (hb : index < 0 ∨ (billRows.length : Int) ≤ index) :
    delete_income incomeRows index = (incomeRows, false)
    ∧ toggle_bill_status billRows index = (billRows, false) := by
  constructor
  · have h : ¬ (0 ≤ index ∧ index < (incomeRows.length : Int)) := by omega
    simp [delete_income, h]
  · have h : ¬ (0 ≤ index ∧ index < (billRows.length : Int)) := by omega
    simp [toggle_bill_status, h]

/-- Witness for claim C7 at a one-row income collection, an empty bill
collection and position 5. -/
theorem out_of_range_ops_noop_witness :
    delete_income [⟨("Salary"), 1000, 0⟩] 5 = ([⟨("Salary"), 1000, 0⟩], false)
    ∧ toggle_bill_status [] 5 = ([], false) :=
  out_of_range_ops_noop [⟨("Salary"), 1000, 0⟩] [] 5 (Or.inr (by decide))
    (Or.inr (by decide))

lemma getD_set_self {α : Type} (l : List α) (n : Nat) (a d : α)
    (h : n < l.length) : (l.set n a).getD n d = a := by
  induction l generalizing n with
  | nil => simp at h
  | cons x t ih =>
      cases n with
      | zero => rfl
      | succ m => exact ih m (Nat.lt_of_succ_lt_succ h)

lemma getD_set_ne {α : Type} (l : List α) (m n : Nat) (a d : α)
    (h : m ≠ n) : (l.set n a).getD m d = l.getD m d := by
  induction l generalizing m n with
  | nil => rfl
  | cons x t ih =>
      cases n with
      | zero =>
          cases m with
          | zero => exact absurd rfl h
          | succ k => rfl
      | succ j =>
          cases m with
          | zero => rfl
          | succ k => exact ih k j (fun hk => h (by rw [hk]))

lemma toggle_status_twice (s : String) :
    toggle_status (toggle_status s) = s ↔ (s = ("Paid") ∨ s = ("Unpaid")) := by
  by_cases h1 : s = ("Unpaid")
  · subst h1
    simp [toggle_status]
  · by_cases h2 : s = ("Paid")
    · subst h2
      simp [toggle_status]
    · simp only [toggle_status, if_neg h1, if_pos rfl]
      constructor
      · intro hh
        exact absurd hh.symm h2
      · intro hh
        rcases hh with hh | hh
        · exact absurd hh h2
        · exact absurd hh h1

lemma toggle_bill_status_in_range (rows : List Bill) (n : Nat)
    (h : n < rows.length) :
    toggle_bill_status rows (n : Int)
      = (rows.set n (toggleRow (rows.getD n default)), true) := by
  have hc : 0 ≤ (n : Int) ∧ (n : Int) < (rows.length : Int) := by omega
  unfold toggle_bill_status
  rw [if_pos hc, Int.toNat_natCast]

/-- Claim C10: toggling an in-range position rewrites exactly that row's
status — to "Paid" when it was exactly "Unpaid" and to "Unpaid" for any
other value — keeps the row's other fields and every other row, and a
second toggle restores the original status precisely when it was "Paid"
or "Unpaid". -/
theorem toggle_bill_status_frame (rows : List Bill) (n : Nat)
    (h : n < rows.length) :
    (toggle_bill_status rows (n : Int)).1.length = rows.length
    ∧ (toggle_bill_status rows (n : Int)).1.getD n default
        = toggleRow (rows.getD n default)
    ∧ (toggleRow (rows.getD n default)).name = (rows.getD n default).name
    ∧ (toggleRow (rows.getD n default)).amountDue = (rows.getD n default).amountDue
    ∧ (toggleRow (rows.getD n default)).dueDate = (rows.getD n default).dueDate
    ∧ (toggleRow (rows.getD n default)).status
        = (if (rows.getD n default).status = ("Unpaid") then ("Paid") else ("Unpaid"))
    ∧ (∀ m, m ≠ n →
        (toggle_bill_status rows (n : Int)).1.getD m default = rows.getD m default)
    ∧ (((toggle_bill_status ((toggle_bill_status rows (n : Int)).1) (n : Int)).1.getD
          n default).status = (rows.getD n default).status
        ↔ ((rows.getD n default).status = ("Paid")
            ∨ (rows.getD n default).status = ("Unpaid"))) := by
  have hout : (toggle_bill_status rows (n : Int)).1
      = rows.set n (toggleRow (rows.getD n default)) := by
    rw [toggle_bill_status_in_range rows n h]
  have hlen : (toggle_bill_status rows (n : Int)).1.length = rows.length := by
    rw [hout, List.length_set]
  have hget : (toggle_bill_status rows (n : Int)).1.getD n default
      = toggleRow (rows.getD n default) := by
    rw [hout]
    exact getD_set_self rows n _ default h
  refine ⟨hlen, hget, rfl, rfl, rfl, rfl, ?_, ?_⟩
  · intro m hm
    rw [hout]
    exact getD_set_ne rows m n _ default hm
  · have hout2 := toggle_bill_status_in_range ((toggle_bill_status rows (n : Int)).1) n
      (by rw [hlen]; exact h)
    have hget2 : (toggle_bill_status ((toggle_bill_status rows (n : Int)).1) (n : Int)).1.getD
        n default = toggleRow (toggleRow (rows.getD n default)) := by
      rw [hout2]
      show ((toggle_bill_status rows (n : Int)).1.set n
          (toggleRow ((toggle_bill_status rows (n : Int)).1.getD n default))).getD n default
          = toggleRow (toggleRow (rows.getD n default))
      rw [getD_set_self _ n _ default (by rw [hlen]; exact h), hget]
    rw [hget2]
    show toggle_status (toggle_status (rows.getD n default).status)
        = (rows.getD n default).status ↔ _
    exact toggle_status_twice _

/-- Witness for claim C10 at a two-bill collection and position 0. -/
theorem toggle_bill_status_frame_witness :
    (toggle_bill_status [⟨("Rent"), 100, 3, ("Unpaid")⟩, ⟨("Water"), 50, 9, ("Paid")⟩]
        (0 : Int)).1.getD 0 default
      = toggleRow ([⟨("Rent"), 100, 3, ("Unpaid")⟩, ⟨("Water"), 50, 9, ("Paid")⟩].getD
          0 default)
    ∧ (toggle_bill_status [⟨("Rent"), 100, 3, ("Unpaid")⟩, ⟨("Water"), 50, 9, ("Paid")⟩]
        (0 : Int)).1.length = 2 := by
  have hw := toggle_bill_status_frame
    [⟨("Rent"), 100, 3, ("Unpaid")⟩, ⟨("Water"), 50, 9, ("Paid")⟩] 0 (by decide)
  exact ⟨hw.2.1, hw.1⟩

/-- Claim C8: an unreadable backing file makes the read return the empty
typed collection without raising, while a failing write during an add or
an in-range delete raises to the caller and leaves the backing store
exactly as it was before the attempt. -/
theorem read_write_failure_semantics (s : IncomeFile) (description : String)
    (amount : ℚ) (date : Int) (index : Int) :
    (s.file = Option.none → get_income_data s = [])
    ∧ add_income false s description amount date = (s, true)
    ∧ ((0 ≤ index ∧ index < ((get_income_data s).length : Int)) →
        delete_income_file false s index = (s, true)) := by
  refine ⟨?_, ?_, ?_⟩
  · intro h
    simp [get_income_data, h]
  · simp [add_income]
  · intro h
    simp [delete_income_file, h]

/-- Witness for claim C8: an unreadable file and a failing write on a
one-row file. -/
theorem read_write_failure_semantics_witness :
    get_income_data { file := Option.none } = []
    ∧ add_income false { file := Option.none } ("Salary") 1000 0
        = ({ file := Option.none }, true)
    ∧ delete_income_file false { file := some [⟨("Salary"), 1000, 0⟩] } 0
        = ({ file := some [⟨("Salary"), 1000, 0⟩] }, true) := by
  have h1 := read_write_failure_semantics { file := Option.none } ("Salary") 1000 0 0
  have h2 := read_write_failure_semantics { file := some [⟨("Salary"), 1000, 0⟩] }
    ("Salary") 1000 0 0
  refine ⟨h1.1 rfl, h1.2.1, h2.2.2 ?_⟩
  constructor
  · decide
  · show (0 : Int) < ((get_income_data { file := some [⟨("Salary"), 1000, 0⟩] }).length : Int)
    norm_num [get_income_data]

lemma sum_if_empty_nonneg {α : Type} (l : List α) (f : α → ℚ)
    (h : ∀ e ∈ l, 0 ≤ f e) :
    0 ≤ (if l.isEmpty then 0 else (l.map f).sum) := by
  split
  · exact le_refl 0
  · apply List.sum_nonneg
    intro x hx
    obtain ⟨e, he, rfl⟩ := List.mem_map.mp hx
    exact h e he

/-- Claim C2: for every snapshot with non-negative amounts — total income
0 included — the health score is the sum of the four sub-scores given by
the formulas of `score_components`, each sub-score lies in [0, 25], and
the total score lies in [0, 100]. -/
theorem health_score_bounds (snap : Snapshot)
    (hInc : ∀ e ∈ snap.income, 0 ≤ e.amount)
    (hEss : ∀ e ∈ snap.essentials, 0 ≤ e.actual)
    (hNe : ∀ e ∈ snap.nonEssentials, 0 ≤ e.amount)
    (hSav : ∀ e ∈ snap.savings, 0 ≤ e.deposit) :
    total_score snap
      = min (savings_rate snap / 20 * 25) 25
        + max 0 (25 - |adherence_variance snap| / 10 * 25)
        + (if 0 < total_expenses snap
            then min (totalSavings snap.savings / (total_expenses snap * 3) * 25) 25
            else 0)
        + (if 80 < expense_ratio_pct snap
            then max 0 (25 - (expense_ratio_pct snap - 80) / 20 * 25) else 25)
    ∧ (0 ≤ score_savings_rate snap ∧ score_savings_rate snap ≤ 25)
    ∧ (0 ≤ score_budget_adherence snap ∧ score_budget_adherence snap ≤ 25)
    ∧ (0 ≤ score_emergency_fund snap ∧ score_emergency_fund snap ≤ 25)
    ∧ (0 ≤ score_expense_control snap ∧ score_expense_control snap ≤ 25)
    ∧ 0 ≤ total_score snap ∧ total_score snap ≤ 100 := by
  have hsav : 0 ≤ totalSavings snap.savings := sum_if_empty_nonneg _ _ hSav
  have hsr : 0 ≤ savings_rate snap := by
    unfold savings_rate
    by_cases hpos : 0 < totalIncome snap.income
    · rw [if_pos hpos]
      exact mul_nonneg (div_nonneg hsav (le_of_lt hpos)) (by norm_num)
    · rw [if_neg hpos]
  have h1 : 0 ≤ score_savings_rate snap ∧ score_savings_rate snap ≤ 25 := by
    constructor
    · exact le_min (mul_nonneg (div_nonneg hsr (by norm_num)) (by norm_num)) (by norm_num)
    · exact min_le_right _ _
  have h2 : 0 ≤ score_budget_adherence snap ∧ score_budget_adherence snap ≤ 25 := by
    constructor
    · exact le_max_left 0 _
    · apply max_le (by norm_num)
      have habs : 0 ≤ |adherence_variance snap| / 10 * 25 :=
        mul_nonneg (div_nonneg (abs_nonneg _) (by norm_num)) (by norm_num)
      linarith
  have hexp : 0 ≤ total_expenses snap :=
    add_nonneg (sum_if_empty_nonneg _ _ hEss) (sum_if_empty_nonneg _ _ hNe)
  have h3 : 0 ≤ score_emergency_fund snap ∧ score_emergency_fund snap ≤ 25 := by
    unfold score_emergency_fund
    by_cases hpos : 0 < total_expenses snap
    · rw [if_pos hpos]
      constructor
      · exact le_min
          (mul_nonneg (div_nonneg hsav (le_of_lt (mul_pos hpos (by norm_num))))
            (by norm_num))
          (by norm_num)
      · exact min_le_right _ _
    · rw [if_neg hpos]
      norm_num
  have h4 : 0 ≤ score_expense_control snap ∧ score_expense_control snap ≤ 25 := by
    unfold score_expense_control
    by_cases hgt : 80 < expense_ratio_pct snap
    · rw [if_pos hgt]
      constructor
      · exact le_max_left 0 _
      · apply max_le (by norm_num)
        have hnn : 0 ≤ (expense_ratio_pct snap - 80) / 20 * 25 :=
          mul_nonneg (div_nonneg (by linarith) (by norm_num)) (by norm_num)
        linarith
    · rw [if_neg hgt]
      norm_num
  refine ⟨rfl, h1, h2, h3, h4, ?_, ?_⟩
  · unfold total_score
    linarith [h1.1, h2.1, h3.1, h4.1]
  · unfold total_score
    linarith [h1.2, h2.2, h3.2, h4.2]

/-- Witness for claim C2 at a concrete non-negative snapshot. -/
theorem health_score_bounds_witness :
    0 ≤ total_score healthWitnessSnapshot
    ∧ total_score healthWitnessSnapshot ≤ 100 := by
  have h := health_score_bounds healthWitnessSnapshot
    (by intro e he; simp [healthWitnessSnapshot] at he; subst he; norm_num)
    (by intro e he; simp [healthWitnessSnapshot] at he; subst he; norm_num)
    (by intro e he; simp [healthWitnessSnapshot] at he; subst he; norm_num)
    (by intro e he; simp [healthWitnessSnapshot] at he; subst he; norm_num)
  exact ⟨h.2.2.2.2.2.1, h.2.2.2.2.2.2⟩

lemma lookupKey_setKey_self (d : SettingsDict) (k : String) (v : SettingVal) :
    lookupKey (setKey d k v) k = some v := by
  induction d with
  | nil => simp [setKey, lookupKey, List.find?]
  | cons p rest ih =>
      by_cases h : p.1 = k
      · simp [setKey, h, lookupKey, List.find?]
      · have hb : (p.1 == k) = false := beq_eq_false_iff_ne.mpr h
        simp only [setKey, if_neg h, lookupKey, List.find?, hb]
        simpa [lookupKey] using ih

lemma lookupKey_setKey_ne (d : SettingsDict) (k k2 : String) (v : SettingVal)
    (h : k2 ≠ k) : lookupKey (setKey d k v) k2 = lookupKey d k2 := by
  have hb : (k == k2) = false := beq_eq_false_iff_ne.mpr (fun hh => h hh.symm)
  induction d with
  | nil => simp [setKey, lookupKey, List.find?, hb]
  | cons p rest ih =>
      by_cases hp : p.1 = k
      · have hbp : (p.1 == k2) = false := by rw [hp]; exact hb
        simp [setKey, hp, lookupKey, List.find?, hb, hbp]
      · by_cases hpk2 : p.1 = k2
        · simp [setKey, if_neg hp, lookupKey, List.find?, hpk2, h]
        · have hbp : (p.1 == k2) = false := beq_eq_false_iff_ne.mpr hpk2
          simp only [setKey, if_neg hp, lookupKey, List.find?, hbp]
          simpa [lookupKey] using ih

lemma lookupKey_eq_none (d : SettingsDict) (k : String) (h : k ∉ keysOf d) :
    lookupKey d k = Option.none := by
  unfold lookupKey
  have hf : d.find? (fun p => p.1 == k) = Option.none := by
    rw [List.find?_eq_none]
    intro p hp
    simp only [beq_iff_eq]
    intro hk
    exact h (List.mem_map.mpr ⟨p, hp, hk⟩)
  rw [hf]
  rfl

lemma lookup_dictUpdate_not_mem (other : SettingsDict) (k : String)
    (h : k ∉ keysOf other) :
    ∀ d : SettingsDict, lookupKey (dictUpdate d other) k = lookupKey d k := by
  induction other with
  | nil => intro d; rfl
  | cons p rest ih =>
      intro d
      have hk1 : k ≠ p.1 := fun hh => h (by simp [keysOf, hh])
      have hkr : k ∉ keysOf rest := fun hh => h (by simp [keysOf] at hh ⊢; exact Or.inr hh)
      show lookupKey (dictUpdate (setKey d p.1 p.2) rest) k = lookupKey d k
      rw [ih hkr]
      exact lookupKey_setKey_ne _ _ _ _ hk1

lemma lookup_dictUpdate_mem (other : SettingsDict) (k : String)
    (hnd : (keysOf other).Nodup) (h : k ∈ keysOf other) :
    ∀ d : SettingsDict, lookupKey (dictUpdate d other) k = lookupKey other k := by
  induction other with
  | nil => simp [keysOf] at h
  | cons p rest ih =>
      intro d
      have hnc : p.1 ∉ keysOf rest ∧ (keysOf rest).Nodup := by
        simpa [keysOf] using hnd
      by_cases hk : k ∈ keysOf rest
      · have hne : p.1 ≠ k := fun hh => hnc.1 (hh ▸ hk)
        have hbp : (p.1 == k) = false := beq_eq_false_iff_ne.mpr hne
        show lookupKey (dictUpdate (setKey d p.1 p.2) rest) k = _
        rw [ih hnc.2 hk]
        simp [lookupKey, List.find?, hbp]
      · have hkp : k = p.1 := by
          rcases (by simpa [keysOf] using h : k = p.1 ∨ k ∈ keysOf rest) with hh | hh
          · exact hh
          · exact absurd hh hk
        show lookupKey (dictUpdate (setKey d p.1 p.2) rest) k = _
        rw [lookup_dictUpdate_not_mem rest k hk, hkp, lookupKey_setKey_self]
        simp [lookupKey, List.find?]

/-- Claim C9: saving a settings map and reloading yields the defaults
merged (`update`) with the saved map; and when the saved map covers every
default key, the reloaded dict agrees with the saved one on every key. -/
theorem settings_round_trip (fs : SettingsFiles) (m : SettingsDict)
    (hnd : (keysOf m).Nodup) :
    load_settings (save_settings fs m) = dictUpdate default_settings m
    ∧ ((∀ k ∈ keysOf default_settings, k ∈ keysOf m) →
        ∀ k, lookupKey (load_settings (save_settings fs m)) k = lookupKey m k) := by
  constructor
  · rfl
  · intro hcov k
    show lookupKey (dictUpdate default_settings m) k = lookupKey m k
    by_cases hk : k ∈ keysOf m
    · exact lookup_dictUpdate_mem m k hnd hk default_settings
    · rw [lookup_dictUpdate_not_mem m k hk default_settings]
      have hkd : k ∉ keysOf default_settings := fun hh => hk (hcov k hh)
      rw [lookupKey_eq_none _ _ hkd, lookupKey_eq_none _ _ hk]

/-- Witness for claim C9: round-tripping the full default map through
`save_settings` and `load_settings`. -/
theorem settings_round_trip_witness :
    load_settings (save_settings ⟨FileState.absent, FileState.absent⟩ default_settings)
      = dictUpdate default_settings default_settings
    ∧ lookupKey (load_settings (save_settings ⟨FileState.absent, FileState.absent⟩
          default_settings)) ("theme")
      = lookupKey default_settings ("theme") := by
  have h := settings_round_trip ⟨FileState.absent, FileState.absent⟩ default_settings
    (by decide)
  exact ⟨h.1, h.2 (by decide) ("theme")⟩

end BudgetBuddy

